import Mathlib

/-!
Verification of the sandboxed expression evaluator and the number-system
converter of the Calculator-and-Binary-Converter repository.

The repository has two variants of the evaluator:
* `src/Main.py`, class `SafeEvaluator` (classmethod `evaluate`), plus
  `NumberConverter` (`validate_input`, `convert`);
* `src/Reservation.py`, module-level `safe_eval` with its own
  `ALLOWED_NAMES` / `ALLOWED_NODES`.

Both variants delegate parsing to Python's `ast.parse(expr, mode='eval')`,
walk the resulting tree with `ast.walk` (breadth-first) checking every node
against a tuple of allowed node classes and every `ast.Name` against an
allowed-names dictionary, and finally run the compiled expression with
`eval` under empty builtins.  This file embeds that pipeline shallowly:
a lexer and parser for the Python expression fragment the program can
receive (numeric, string and imaginary literals, names, unary `+ -`,
the binary operators `+ - * / // % ** << >> & | ^`, calls, attribute
access, subscripts, parenthesised tuples and list displays), the
breadth-first node walk, and a numeric evaluator.

Modelling conventions, stated once:
* Python `float` values are idealized as exact fractions (the type `Flt`
  below); decimal literals such as `0.5` are exact in both models.
  `math.inf` / `math.nan` are distinguished constructors; arithmetic on
  them is not exercised by any claim.
* Transcendental function values (`sin`, `cos`, `log`, ..., and `**` with a
  non-integral exponent) are represented by the placeholder `transcFloat`;
  no claim depends on any of their values, only on name resolution, domain
  errors, and result kinds.
* Python exceptions are classified by the specification's error taxonomy:
  `ValueError("Empty expression")` ↦ `emptyExpression`, parse failures ↦
  `syntaxError`, the "Unsupported operation"/"Disallowed expression" branch
  ↦ `disallowedConstruct`, the unknown-name branch ↦ `unknownName`,
  `ZeroDivisionError` ↦ `divisionByZero`, the factorial domain failure
  (`ValueError`/`TypeError`, version-dependent) ↦ `domainError`, the
  "Complex numbers not supported" branch ↦ `complexResult`.
-/

/-- Error taxonomy of the evaluator and converter, following §7 of the
specification; `fuelOut` is an internal marker for exhausted recursion fuel
and is unreachable for the fuel budgets the pipelines use. -/
inductive PyErr where
  | emptyExpression : PyErr
  | syntaxError : PyErr
  | disallowedConstruct : String → PyErr
  | unknownName : String → PyErr
  | divisionByZero : PyErr
  | complexResult : PyErr
  | domainError : PyErr
  | typeError : PyErr
  | indexError : PyErr
  | invalidDigits : String → PyErr
  | fuelOut : PyErr
deriving DecidableEq, Repr

/-- Tags for the callable objects stored in the allowed-names dictionaries:
`math.sqrt`, `math.factorial`, the trigonometric/logarithmic/exponential
functions, the builtins `abs round pow min max` added by the `update` call,
and `misc` for the remaining public `math` attributes (none of which any
claim applies). -/
inductive PyFun where
  | fsqrt : PyFun
  | ffactorial : PyFun
  | fsin : PyFun
  | fcos : PyFun
  | ftan : PyFun
  | flog : PyFun
  | flog10 : PyFun
  | flog2 : PyFun
  | fexp : PyFun
  | babs : PyFun
  | bround : PyFun
  | bpow : PyFun
  | bmin : PyFun
  | bmax : PyFun
  | misc : String → PyFun
deriving DecidableEq, Repr

/-- Idealized Python float: an exact fraction kept in lowest terms with a
positive denominator, so that structural equality is value equality and all
arithmetic reduces in the kernel.  Stands in for IEEE doubles; every float
a claim inspects (integer-valued square roots, decimal literals, zero
tests) is exact in IEEE arithmetic as well. -/
structure Flt where
  num : ℤ
  den : ℕ
deriving DecidableEq, Repr

instance (n : ℕ) : OfNat Flt n := ⟨⟨(n : ℤ), 1⟩⟩

/-- Normalizing constructor: sign moved to the numerator, fraction reduced. -/
def mkFlt (n d : ℤ) : Flt :=
  if d = 0 then ⟨0, 1⟩
  else
    let s : ℤ := if d < 0 then -1 else 1
    let n' := s * n
    let d' := (s * d).toNat
    let g := Nat.gcd n'.natAbs d'
    ⟨n' / (g : ℤ), d' / g⟩

/-- Decimal value `m / 10 ^ k` (for float literals and constants). -/
def fltDec (m k : ℕ) : Flt := mkFlt (m : ℤ) ((10 : ℤ) ^ k)

/-- Embedding of an integer. -/
def fltOfInt (n : ℤ) : Flt := ⟨n, 1⟩

/-- Sum of idealized floats. -/
def fltAdd (a b : Flt) : Flt :=
  mkFlt (a.num * b.den + b.num * a.den) ((a.den : ℤ) * b.den)

/-- Difference of idealized floats. -/
def fltSub (a b : Flt) : Flt :=
  mkFlt (a.num * b.den - b.num * a.den) ((a.den : ℤ) * b.den)

/-- Product of idealized floats. -/
def fltMul (a b : Flt) : Flt := mkFlt (a.num * b.num) ((a.den : ℤ) * b.den)

/-- Quotient of idealized floats (callers guard a zero divisor). -/
def fltDiv (a b : Flt) : Flt := mkFlt (a.num * b.den) ((a.den : ℤ) * b.num)

/-- Negation. -/
def fltNeg (a : Flt) : Flt := ⟨-a.num, a.den⟩

/-- Absolute value. -/
def fltAbs (a : Flt) : Flt := ⟨|a.num|, a.den⟩

/-- Strict order. -/
def fltLt (a b : Flt) : Bool := a.num * (b.den : ℤ) < b.num * (a.den : ℤ)

/-- Floor to an integer. -/
def fltFloor (a : Flt) : ℤ := Int.fdiv a.num (a.den : ℤ)

/-- Integral power. -/
def fltPowInt (a : Flt) (n : ℤ) : Flt :=
  if 0 ≤ n then mkFlt (a.num ^ n.toNat) ((a.den : ℤ) ^ n.toNat)
  else mkFlt ((a.den : ℤ) ^ n.natAbs) (a.num ^ n.natAbs)

/-- Fueled Newton iteration for the integer square root (`Nat.sqrt` is not
kernel-reducible; this is, and fuel `n` always suffices). -/
def sqrtAux : ℕ → ℕ → ℕ → ℕ
  | 0, x, _ => x
  | fuel + 1, x, n =>
    let y := (x + n / x) / 2
    if y < x then sqrtAux fuel y n else x

/-- Integer square root (rounded down). -/
def natSqrt (n : ℕ) : ℕ := if n = 0 then 0 else sqrtAux n n n

/-- Square root on idealized floats: exact on exact squares (IEEE
`math.sqrt` is also exact there, e.g. `sqrt(16) == 4.0`); elsewhere a
deterministic decimal approximation standing in for the IEEE result, which
no claim inspects. -/
def fltSqrt (q : Flt) : Flt :=
  let n := q.num.toNat
  let d := q.den
  let sn := natSqrt n
  let sd := natSqrt d
  if sn * sn = n ∧ sd * sd = d then ⟨(sn : ℤ), sd⟩
  else mkFlt (natSqrt (n * d * 10 ^ 24) : ℤ) ((d : ℤ) * 10 ^ 12)

/-- Runtime values of the embedded evaluator: Python ints, floats
(idealized as exact fractions, with `inf`/`nan` separate), complex numbers,
strings, tuples, lists, and the callable objects held by the name table. -/
inductive PyVal where
  | int : ℤ → PyVal
  | float : Flt → PyVal
  | inf : Bool → PyVal
  | nan : PyVal
  | complex : Flt → Flt → PyVal
  | str : String → PyVal
  | tuple : List PyVal → PyVal
  | list : List PyVal → PyVal
  | builtin : PyFun → PyVal
deriving Repr

/-- Entries contributed by `dir(math)` (public attributes of CPython's
`math` module, dunder names filtered out), in the source's comprehension
`{name: getattr(math, name) for name in dir(math) if not name.startswith("__")}`.
The float constants carry the shortest-repr decimal value of the IEEE
doubles (exactness of the trailing digits is irrelevant to every claim). -/
def mathModuleNames : List (String × PyVal) :=
  [ ("acos", .builtin (.misc "acos")), ("acosh", .builtin (.misc "acosh")),
    ("asin", .builtin (.misc "asin")), ("asinh", .builtin (.misc "asinh")),
    ("atan", .builtin (.misc "atan")), ("atan2", .builtin (.misc "atan2")),
    ("atanh", .builtin (.misc "atanh")), ("cbrt", .builtin (.misc "cbrt")),
    ("ceil", .builtin (.misc "ceil")), ("comb", .builtin (.misc "comb")),
    ("copysign", .builtin (.misc "copysign")), ("cos", .builtin .fcos),
    ("cosh", .builtin (.misc "cosh")), ("degrees", .builtin (.misc "degrees")),
    ("dist", .builtin (.misc "dist")), ("e", .float (fltDec 2718281828459045 15)),
    ("erf", .builtin (.misc "erf")), ("erfc", .builtin (.misc "erfc")),
    ("exp", .builtin .fexp), ("exp2", .builtin (.misc "exp2")),
    ("expm1", .builtin (.misc "expm1")), ("fabs", .builtin (.misc "fabs")),
    ("factorial", .builtin .ffactorial), ("floor", .builtin (.misc "floor")),
    ("fmod", .builtin (.misc "fmod")), ("frexp", .builtin (.misc "frexp")),
    ("fsum", .builtin (.misc "fsum")), ("gamma", .builtin (.misc "gamma")),
    ("gcd", .builtin (.misc "gcd")), ("hypot", .builtin (.misc "hypot")),
    ("inf", .inf false), ("isclose", .builtin (.misc "isclose")),
    ("isfinite", .builtin (.misc "isfinite")), ("isinf", .builtin (.misc "isinf")),
    ("isnan", .builtin (.misc "isnan")), ("isqrt", .builtin (.misc "isqrt")),
    ("lcm", .builtin (.misc "lcm")), ("ldexp", .builtin (.misc "ldexp")),
    ("lgamma", .builtin (.misc "lgamma")), ("log", .builtin .flog),
    ("log10", .builtin .flog10), ("log1p", .builtin (.misc "log1p")),
    ("log2", .builtin .flog2), ("modf", .builtin (.misc "modf")),
    ("nan", .nan), ("nextafter", .builtin (.misc "nextafter")),
    ("perm", .builtin (.misc "perm")), ("pi", .float (fltDec 3141592653589793 15)),
    ("pow", .builtin (.misc "mathpow")), ("prod", .builtin (.misc "prod")),
    ("radians", .builtin (.misc "radians")), ("remainder", .builtin (.misc "remainder")),
    ("sin", .builtin .fsin), ("sinh", .builtin (.misc "sinh")),
    ("sqrt", .builtin .fsqrt), ("tan", .builtin .ftan),
    ("tanh", .builtin (.misc "tanh")), ("tau", .float (fltDec 6283185307179586 15)),
    ("trunc", .builtin (.misc "trunc")), ("ulp", .builtin (.misc "ulp")) ]

/-- Dictionary lookup; the overriding entries added by `dict.update` are
placed in front of the `math`-module entries, so the first match mirrors
the final state of the Python dict. -/
def lookupName (tbl : List (String × PyVal)) (id : String) : Option PyVal :=
  (tbl.find? (fun p => p.1 = id)).map (fun p => p.2)

namespace SafeEvaluator

/-- ALLOWED_NAMES of `src/Main.py` (lines 30-38): the `math` attributes
updated with the builtins `abs round pow min max` and `math.factorial`;
update entries come first so that they shadow the `math` entries. -/
def ALLOWED_NAMES : List (String × PyVal) :=
  [ ("abs", .builtin .babs), ("round", .builtin .bround),
    ("pow", .builtin .bpow), ("factorial", .builtin .ffactorial),
    ("min", .builtin .bmin), ("max", .builtin .bmax) ] ++ mathModuleNames

/-- ALLOWED_NODES of `src/Main.py` (lines 40-45), as the `ast` class names
the tuple lists. -/
def ALLOWED_NODES : List String :=
  [ "Expression", "Call", "Name", "Load", "BinOp", "UnaryOp",
    "Num", "Constant", "Add", "Sub", "Mult", "Div", "Mod",
    "Pow", "USub", "UAdd", "LShift", "RShift", "BitXor",
    "BitAnd", "BitOr", "FloorDiv", "Tuple", "List" ]

end SafeEvaluator

namespace Reservation

/-- ALLOWED_NAMES of `src/Reservation.py` (lines 20-26): like Main's but
the update adds only `abs round pow factorial` — no `min`/`max`. -/
def ALLOWED_NAMES : List (String × PyVal) :=
  [ ("abs", .builtin .babs), ("round", .builtin .bround),
    ("pow", .builtin .bpow), ("factorial", .builtin .ffactorial) ] ++ mathModuleNames

/-- ALLOWED_NODES of `src/Reservation.py` (lines 28-34): Main's tuple plus
`Subscript`, `Index` and `Slice`. -/
def ALLOWED_NODES : List String :=
  SafeEvaluator.ALLOWED_NODES ++ [ "Subscript", "Index", "Slice" ]

end Reservation

/-- Literal constants as held by `ast.Constant`: integers, floats, complex
values (imaginary literals such as `1j`), and strings. -/
inductive PyConst where
  | int : ℤ → PyConst
  | float : Flt → PyConst
  | complex : Flt → Flt → PyConst
  | str : String → PyConst
deriving DecidableEq, Repr

/-- Unary operators of `ast.UnaryOp`. -/
inductive UOp where
  | usub : UOp
  | uadd : UOp
deriving DecidableEq, Repr

/-- Binary operators of `ast.BinOp`. -/
inductive BOp where
  | add | sub | mult | div | mod | pow
  | floordiv | lshift | rshift | bitand | bitor | bitxor
deriving DecidableEq, Repr

/-- Expression nodes produced by `ast.parse(expr, mode='eval')` for the
fragment the program can receive. -/
inductive PyExpr where
  | const : PyConst → PyExpr
  | name : String → PyExpr
  | unaryOp : UOp → PyExpr → PyExpr
  | binOp : BOp → PyExpr → PyExpr → PyExpr
  | call : PyExpr → List PyExpr → PyExpr
  | attribute : PyExpr → String → PyExpr
  | subscript : PyExpr → PyExpr → PyExpr
  | tuple : List PyExpr → PyExpr
  | list : List PyExpr → PyExpr
deriving Repr

/-- Class name of the `ast` node a `PyExpr` constructor embeds, as
`type(n).__name__` reports it. -/
def kindName : PyExpr → String
  | .const _ => "Constant"
  | .name _ => "Name"
  | .unaryOp _ _ => "UnaryOp"
  | .binOp _ _ _ => "BinOp"
  | .call _ _ => "Call"
  | .attribute _ _ => "Attribute"
  | .subscript _ _ => "Subscript"
  | .tuple _ => "Tuple"
  | .list _ => "List"

/-- Child expression nodes in `ast.iter_child_nodes` field order.  The
operator and `Load`-context child objects (`ast.Add` instances etc.) are
omitted: every such class is a member of both ALLOWED_NODES tuples and is
not an `ast.Name`, so `ast.walk` never faults on them. -/
def nodeChildren : PyExpr → List PyExpr
  | .const _ => []
  | .name _ => []
  | .unaryOp _ e => [e]
  | .binOp _ l r => [l, r]
  | .call f args => f :: args
  | .attribute v _ => [v]
  | .subscript v i => [v, i]
  | .tuple es => es
  | .list es => es

/-- Nodes in the breadth-first order of `ast.walk`, fuel-bounded (one unit
of fuel per node popped; any fuel at least the node count is exhaustive). -/
def bfsNodes : ℕ → List PyExpr → List PyExpr
  | 0, _ => []
  | _ + 1, [] => []
  | fuel + 1, e :: rest => e :: bfsNodes fuel (rest ++ nodeChildren e)

/-- Check of a single walked node, mirroring the two tests in the loop body
of both variants: the `isinstance(n, ALLOWED_NODES)` class check, then, for
`ast.Name` nodes, membership of the identifier in the names dictionary. -/
def checkNode (kinds : List String) (tbl : List (String × PyVal)) (e : PyExpr) :
    Except PyErr Unit :=
  if ¬ kinds.contains (kindName e) then .error (.disallowedConstruct (kindName e))
  else match e with
    | .name id =>
        if (lookupName tbl id).isSome then .ok () else .error (.unknownName id)
    | _ => .ok ()

/-- Fail-fast fold of `checkNode` over a node list. -/
def checkNodes (kinds : List String) (tbl : List (String × PyVal)) :
    List PyExpr → Except PyErr Unit
  | [] => .ok ()
  | e :: rest =>
      match checkNode kinds tbl e with
      | .ok _ => checkNodes kinds tbl rest
      | .error er => .error er

/-- The `for n in ast.walk(node): ...` validation loop of both variants. -/
def walkCheck (kinds : List String) (tbl : List (String × PyVal))
    (fuel : ℕ) (e : PyExpr) : Except PyErr Unit :=
  checkNodes kinds tbl (bfsNodes fuel [e])

/-- Tokens of the Python expression fragment. -/
inductive Tok where
  | num : PyConst → Tok
  | ident : String → Tok
  | strTok : String → Tok
  | op : String → Tok
  | lparen : Tok
  | rparen : Tok
  | lbrack : Tok
  | rbrack : Tok
  | comma : Tok
  | dot : Tok
deriving DecidableEq, Repr

/-- Whitespace skipped by the tokenizer. -/
def isSpaceChar (c : Char) : Bool :=
  c = ' ' || c = '\t' || c = '\n' || c = '\r'

/-- Letters beyond ASCII that Python accepts in identifiers, restricted to
the ranges relevant here: Latin-1 letters (which excludes the operators
`×` U+00D7 and `÷` U+00F7) and Greek letters such as `π`. -/
def isUniLetter (c : Char) : Bool :=
  (0xC0 ≤ c.toNat && c.toNat ≤ 0xFF && c.toNat ≠ 0xD7 && c.toNat ≠ 0xF7) ||
  (0x391 ≤ c.toNat && c.toNat ≤ 0x3C9)

/-- Characters that may start an identifier. -/
def identStartChar (c : Char) : Bool :=
  c.isAlpha || c = '_' || isUniLetter c

/-- Characters that may continue an identifier. -/
def identChar (c : Char) : Bool :=
  identStartChar c || c.isDigit

/-- Value of a run of decimal digits. -/
def digitsToNat (cs : List Char) : ℕ :=
  cs.foldl (fun a c => a * 10 + (c.toNat - 48)) 0

/-- Longest digit run and the remaining characters. -/
def spanDigits (cs : List Char) : List Char × List Char :=
  cs.span (fun c => c.isDigit)

/-- Does a leading dot begin a float literal such as `.5`? -/
def dotStartsNum : List Char → Bool
  | d :: _ => d.isDigit
  | [] => false

/-- Lex one numeric literal (integer, float, or imaginary with a `j`/`J`
suffix); exponent notation is not modelled (no claim uses it). -/
def lexNum (cs : List Char) : PyConst × List Char :=
  let (ip, r1) := spanDigits cs
  let fr : Option (List Char) × List Char :=
    match r1 with
    | '.' :: rest => let (fp, r) := spanDigits rest; (some fp, r)
    | _ => (none, r1)
  let n := digitsToNat ip
  let q : Flt :=
    match fr.1 with
    | some fp => fltDec (n * 10 ^ fp.length + digitsToNat fp) fp.length
    | none => fltOfInt (n : ℤ)
  match fr.2 with
  | 'j' :: r3 => (.complex 0 q, r3)
  | 'J' :: r3 => (.complex 0 q, r3)
  | _ =>
    match fr.1 with
    | some _ => (.float q, fr.2)
    | none => (.int (digitsToNat ip : ℤ), fr.2)

/-- Tokenizer; every step consumes at least one character, so fuel at least
the character count is exhaustive.  An unrecognized character (e.g. `×`) is
a syntax error, as in CPython's tokenizer. -/
def lexRun : ℕ → List Char → Except PyErr (List Tok)
  | 0, _ => .error .fuelOut
  | _ + 1, [] => .ok []
  | fuel + 1, c :: cs =>
    if isSpaceChar c then lexRun fuel cs
    else if c.isDigit || (c = '.' && dotStartsNum cs) then
      let (k, rest) := lexNum (c :: cs)
      (lexRun fuel rest).map (fun ts => Tok.num k :: ts)
    else if identStartChar c then
      let (xs, rest) := (c :: cs).span identChar
      (lexRun fuel rest).map (fun ts => Tok.ident (String.mk xs) :: ts)
    else if c = '\'' || c = '"' then
      let (body, r1) := cs.span (fun d => d ≠ c)
      match r1 with
      | _ :: r2 => (lexRun fuel r2).map (fun ts => Tok.strTok (String.mk body) :: ts)
      | [] => .error .syntaxError
    else
      match c, cs with
      | '*', '*' :: r => (lexRun fuel r).map (fun ts => Tok.op "**" :: ts)
      | '/', '/' :: r => (lexRun fuel r).map (fun ts => Tok.op "//" :: ts)
      | '<', '<' :: r => (lexRun fuel r).map (fun ts => Tok.op "<<" :: ts)
      | '>', '>' :: r => (lexRun fuel r).map (fun ts => Tok.op ">>" :: ts)
      | '*', _ => (lexRun fuel cs).map (fun ts => Tok.op "*" :: ts)
      | '/', _ => (lexRun fuel cs).map (fun ts => Tok.op "/" :: ts)
      | '%', _ => (lexRun fuel cs).map (fun ts => Tok.op "%" :: ts)
      | '+', _ => (lexRun fuel cs).map (fun ts => Tok.op "+" :: ts)
      | '-', _ => (lexRun fuel cs).map (fun ts => Tok.op "-" :: ts)
      | '&', _ => (lexRun fuel cs).map (fun ts => Tok.op "&" :: ts)
      | '|', _ => (lexRun fuel cs).map (fun ts => Tok.op "|" :: ts)
      | '^', _ => (lexRun fuel cs).map (fun ts => Tok.op "^" :: ts)
      | '(', _ => (lexRun fuel cs).map (fun ts => Tok.lparen :: ts)
      | ')', _ => (lexRun fuel cs).map (fun ts => Tok.rparen :: ts)
      | '[', _ => (lexRun fuel cs).map (fun ts => Tok.lbrack :: ts)
      | ']', _ => (lexRun fuel cs).map (fun ts => Tok.rbrack :: ts)
      | ',', _ => (lexRun fuel cs).map (fun ts => Tok.comma :: ts)
      | '.', _ => (lexRun fuel cs).map (fun ts => Tok.dot :: ts)
      | _, _ => .error .syntaxError

/-- Binding power and right-associativity of the binary operators,
following Python's grammar (`**` is right-associative and binds above the
unary prefix level 8). -/
def binPrec : String → Option (ℕ × Bool)
  | "|" => some (2, false)
  | "^" => some (3, false)
  | "&" => some (4, false)
  | "<<" => some (5, false)
  | ">>" => some (5, false)
  | "+" => some (6, false)
  | "-" => some (6, false)
  | "*" => some (7, false)
  | "/" => some (7, false)
  | "//" => some (7, false)
  | "%" => some (7, false)
  | "**" => some (9, true)
  | _ => none

/-- Operator token to `ast.BinOp` operator. -/
def opOf : String → BOp
  | "-" => .sub
  | "*" => .mult
  | "/" => .div
  | "//" => .floordiv
  | "%" => .mod
  | "**" => .pow
  | "<<" => .lshift
  | ">>" => .rshift
  | "&" => .bitand
  | "|" => .bitor
  | "^" => .bitxor
  | _ => .add

/-- Work items of the precedence-climbing parser: parse an expression with
a minimum binding power, continue an infix/postfix chain on a parsed left
operand, collect call arguments, or collect tuple/list elements. -/
inductive PJob where
  | exprJ : ℕ → PJob
  | ledJ : ℕ → PyExpr → PJob
  | argsJ : PyExpr → List PyExpr → PJob
  | tupleJ : List PyExpr → PJob
  | listJ : List PyExpr → PJob

/-- Precedence-climbing parser for the expression fragment, as a single
function structurally recursive on fuel so that concrete runs reduce in
the kernel.  Mirrors `ast.parse(expr, mode='eval')` on the fragment: calls,
attributes and subscripts are postfix trailers, parenthesised
comma-separated expressions become `Tuple` nodes, bracketed ones `List`
nodes.  Slices, comprehensions, lambdas, comparisons and boolean operators
are outside the fragment (no claim's input contains them). -/
def pRun : ℕ → PJob → List Tok → Except PyErr (PyExpr × List Tok)
  | 0, _, _ => .error .fuelOut
  | fuel + 1, .exprJ mp, ts =>
    match ts with
    | .num k :: rest => pRun fuel (.ledJ mp (.const k)) rest
    | .strTok s :: rest => pRun fuel (.ledJ mp (.const (.str s))) rest
    | .ident x :: rest => pRun fuel (.ledJ mp (.name x)) rest
    | .op "-" :: rest =>
      match pRun fuel (.exprJ 8) rest with
      | .ok (e, r) => pRun fuel (.ledJ mp (.unaryOp .usub e)) r
      | .error er => .error er
    | .op "+" :: rest =>
      match pRun fuel (.exprJ 8) rest with
      | .ok (e, r) => pRun fuel (.ledJ mp (.unaryOp .uadd e)) r
      | .error er => .error er
    | .lparen :: .rparen :: rest => pRun fuel (.ledJ mp (.tuple [])) rest
    | .lparen :: rest =>
      match pRun fuel (.exprJ 0) rest with
      | .ok (e, .rparen :: r2) => pRun fuel (.ledJ mp e) r2
      | .ok (e, .comma :: r2) =>
        match pRun fuel (.tupleJ [e]) r2 with
        | .ok (t, r3) => pRun fuel (.ledJ mp t) r3
        | .error er => .error er
      | .ok _ => .error .syntaxError
      | .error er => .error er
    | .lbrack :: .rbrack :: rest => pRun fuel (.ledJ mp (.list [])) rest
    | .lbrack :: rest =>
      match pRun fuel (.exprJ 0) rest with
      | .ok (e, .rbrack :: r2) => pRun fuel (.ledJ mp (.list [e])) r2
      | .ok (e, .comma :: r2) =>
        match pRun fuel (.listJ [e]) r2 with
        | .ok (t, r3) => pRun fuel (.ledJ mp t) r3
        | .error er => .error er
      | .ok _ => .error .syntaxError
      | .error er => .error er
    | _ => .error .syntaxError
  | fuel + 1, .ledJ mp lhs, ts =>
    match ts with
    | .lparen :: .rparen :: rest => pRun fuel (.ledJ mp (.call lhs [])) rest
    | .lparen :: rest =>
      match pRun fuel (.exprJ 0) rest with
      | .ok (a, r) =>
        match pRun fuel (.argsJ lhs [a]) r with
        | .ok (c, r2) => pRun fuel (.ledJ mp c) r2
        | .error er => .error er
      | .error er => .error er
    | .dot :: .ident a :: rest => pRun fuel (.ledJ mp (.attribute lhs a)) rest
    | .lbrack :: rest =>
      match pRun fuel (.exprJ 0) rest with
      | .ok (i, .rbrack :: r2) => pRun fuel (.ledJ mp (.subscript lhs i)) r2
      | .ok _ => .error .syntaxError
      | .error er => .error er
    | .op o :: rest =>
      match binPrec o with
      | some (p, ra) =>
        if mp ≤ p then
          match pRun fuel (.exprJ (if ra then p else p + 1)) rest with
          | .ok (rhs, r) => pRun fuel (.ledJ mp (.binOp (opOf o) lhs rhs)) r
          | .error er => .error er
        else .ok (lhs, ts)
      | none => .ok (lhs, ts)
    | _ => .ok (lhs, ts)
  | fuel + 1, .argsJ fn acc, ts =>
    match ts with
    | .rparen :: rest => .ok (.call fn acc.reverse, rest)
    | .comma :: rest =>
      match pRun fuel (.exprJ 0) rest with
      | .ok (a, r) => pRun fuel (.argsJ fn (a :: acc)) r
      | .error er => .error er
    | _ => .error .syntaxError
  | fuel + 1, .tupleJ acc, ts =>
    match ts with
    | .rparen :: rest => .ok (.tuple acc.reverse, rest)
    | _ =>
      match pRun fuel (.exprJ 0) ts with
      | .ok (e, .comma :: r2) => pRun fuel (.tupleJ (e :: acc)) r2
      | .ok (e, .rparen :: r2) => .ok (.tuple (e :: acc).reverse, r2)
      | .ok _ => .error .syntaxError
      | .error er => .error er
  | fuel + 1, .listJ acc, ts =>
    match ts with
    | .rbrack :: rest => .ok (.list acc.reverse, rest)
    | _ =>
      match pRun fuel (.exprJ 0) ts with
      | .ok (e, .comma :: r2) => pRun fuel (.listJ (e :: acc)) r2
      | .ok (e, .rbrack :: r2) => .ok (.list (e :: acc).reverse, r2)
      | .ok _ => .error .syntaxError
      | .error er => .error er

/-- Tokenize a whole string. -/
def pyTokens (s : String) : Except PyErr (List Tok) :=
  lexRun (s.length + 1) s.toList

/-- Model of `ast.parse(s, mode='eval')`: tokenize, parse one expression,
and require all tokens consumed; every failure is the SyntaxError kind. -/
def pyParse (s : String) : Except PyErr PyExpr :=
  match pyTokens s with
  | .error _ => .error .syntaxError
  | .ok ts =>
    match pRun ((s.length + 4) * (s.length + 4)) (.exprJ 0) ts with
    | .ok (e, []) => .ok e
    | .ok (_, _ :: _) => .error .syntaxError
    | .error _ => .error .syntaxError

example : pyParse "2*3" = .ok (.binOp .mult (.const (.int 2)) (.const (.int 3))) := rfl

example : pyParse "(1,2)[0]" =
    .ok (.subscript (.tuple [.const (.int 1), .const (.int 2)]) (.const (.int 0))) := rfl

example : pyParse "os.system('x')" =
    .ok (.call (.attribute (.name "os") "system") [.const (.str "x")]) := rfl

/-- Placeholder value of transcendental float computations (`sin`, `log`,
non-integral powers, ...).  No claim depends on any such value; only name
resolution, arity/domain errors and result kinds matter, so the numeric
content is irrelevant and fixed at `0`. -/
def transcFloat : Flt := 0

/-- Is the value one of the numeric types (int, float, complex, inf, nan)? -/
def isNumeric : PyVal → Bool
  | .int _ => true
  | .float _ => true
  | .complex _ _ => true
  | .inf _ => true
  | .nan => true
  | _ => false

/-- Is the value numerically equal to zero (the `ZeroDivisionError` test)? -/
def isZeroNum : PyVal → Bool
  | .int n => n = 0
  | .float q => q = 0
  | .complex a b => a = 0 ∧ b = 0
  | _ => false

/-- Float content of an int or float value (0 for other shapes; callers
guard). -/
def fltOf : PyVal → Flt
  | .int n => fltOfInt n
  | .float q => q
  | _ => 0

/-- Numeric addition/subtraction/multiplication with Python's promotion:
int⊕int stays int, complex is contagious, floats otherwise; `inf`/`nan`
operands yield the `nan` placeholder (never exercised by a claim). -/
def liftArith (fi : ℤ → ℤ → ℤ) (ff : Flt → Flt → Flt)
    (fc : Flt → Flt → Flt → Flt → Flt × Flt) : PyVal → PyVal → Option PyVal
  | .int a, .int b => some (.int (fi a b))
  | .inf _, v => if isNumeric v then some .nan else none
  | .nan, v => if isNumeric v then some .nan else none
  | v, .inf _ => if isNumeric v then some .nan else none
  | v, .nan => if isNumeric v then some .nan else none
  | .int a, .float q => some (.float (ff (fltOfInt a) q))
  | .float q, .int a => some (.float (ff q (fltOfInt a)))
  | .float p, .float q => some (.float (ff p q))
  | .complex a b, .complex x y => some (.complex (fc a b x y).1 (fc a b x y).2)
  | .complex a b, .int n =>
    some (.complex (fc a b (fltOfInt n) 0).1 (fc a b (fltOfInt n) 0).2)
  | .complex a b, .float q => some (.complex (fc a b q 0).1 (fc a b q 0).2)
  | .int n, .complex x y =>
    some (.complex (fc (fltOfInt n) 0 x y).1 (fc (fltOfInt n) 0 x y).2)
  | .float q, .complex x y => some (.complex (fc q 0 x y).1 (fc q 0 x y).2)
  | _, _ => none

/-- Python `+`: numeric addition, or sequence/string concatenation. -/
def pyAdd (a b : PyVal) : Except PyErr PyVal :=
  match a, b with
  | .str x, .str y => .ok (.str (x ++ y))
  | .tuple x, .tuple y => .ok (.tuple (x ++ y))
  | .list x, .list y => .ok (.list (x ++ y))
  | _, _ =>
    match liftArith (· + ·) fltAdd
        (fun a b x y => (fltAdd a x, fltAdd b y)) a b with
    | some v => .ok v
    | none => .error .typeError

/-- Python binary `-`. -/
def pySub (a b : PyVal) : Except PyErr PyVal :=
  match liftArith (· - ·) fltSub
      (fun a b x y => (fltSub a x, fltSub b y)) a b with
  | some v => .ok v
  | none => .error .typeError

/-- Repetition of a list by an int (`seq * n`). -/
def seqRepeat {α : Type} (xs : List α) (n : ℤ) : List α :=
  (List.replicate n.toNat xs).flatten

/-- Python `*`: numeric product, or sequence repetition. -/
def pyMul (a b : PyVal) : Except PyErr PyVal :=
  match a, b with
  | .str x, .int n => .ok (.str (String.mk (seqRepeat x.toList n)))
  | .int n, .str x => .ok (.str (String.mk (seqRepeat x.toList n)))
  | .tuple x, .int n => .ok (.tuple (seqRepeat x n))
  | .int n, .tuple x => .ok (.tuple (seqRepeat x n))
  | .list x, .int n => .ok (.list (seqRepeat x n))
  | .int n, .list x => .ok (.list (seqRepeat x n))
  | _, _ =>
    match liftArith (· * ·) fltMul
        (fun a b x y =>
          (fltSub (fltMul a x) (fltMul b y),
           fltAdd (fltMul a y) (fltMul b x))) a b with
    | some v => .ok v
    | none => .error .typeError

/-- Python true division `/`: `ZeroDivisionError` on a zero right operand,
otherwise a float (or complex) quotient; `int / int` is a float. -/
def pyDiv (a b : PyVal) : Except PyErr PyVal :=
  if isNumeric a && isNumeric b then
    if isZeroNum b then .error .divisionByZero
    else
      match a, b with
      | .inf _, _ | .nan, _ | _, .inf _ | _, .nan => .ok .nan
      | .complex p q, v =>
        match v with
        | .complex x y =>
          let d := fltAdd (fltMul x x) (fltMul y y)
          .ok (.complex (fltDiv (fltAdd (fltMul p x) (fltMul q y)) d)
                        (fltDiv (fltSub (fltMul q x) (fltMul p y)) d))
        | _ => .ok (.complex (fltDiv p (fltOf v)) (fltDiv q (fltOf v)))
      | v, .complex x y =>
        let d := fltAdd (fltMul x x) (fltMul y y)
        .ok (.complex (fltDiv (fltMul (fltOf v) x) d)
                      (fltDiv (fltNeg (fltMul (fltOf v) y)) d))
      | _, _ => .ok (.float (fltDiv (fltOf a) (fltOf b)))
  else .error .typeError

/-- Python floor division `//`: floored integer quotient on ints (via
`Int.fdiv`), floored float on floats; complex operands are a `TypeError`. -/
def pyFloorDiv (a b : PyVal) : Except PyErr PyVal :=
  match a, b with
  | .int x, .int y => if y = 0 then .error .divisionByZero else .ok (.int (Int.fdiv x y))
  | .inf _, v | .nan, v => if isNumeric v then .ok .nan else .error .typeError
  | v, .inf _ | v, .nan => if isNumeric v then .ok .nan else .error .typeError
  | .complex _ _, _ | _, .complex _ _ => .error .typeError
  | .int _, .float _ | .float _, .int _ | .float _, .float _ =>
    if fltOf b = 0 then .error .divisionByZero
    else .ok (.float (fltOfInt (fltFloor (fltDiv (fltOf a) (fltOf b)))))
  | _, _ => .error .typeError

/-- Python `%`: floored remainder, sign following the divisor (`Int.fmod`
on ints, `a - b * ⌊a / b⌋` on floats). -/
def pyMod (a b : PyVal) : Except PyErr PyVal :=
  match a, b with
  | .int x, .int y => if y = 0 then .error .divisionByZero else .ok (.int (Int.fmod x y))
  | .inf _, v | .nan, v => if isNumeric v then .ok .nan else .error .typeError
  | v, .inf _ | v, .nan => if isNumeric v then .ok .nan else .error .typeError
  | .complex _ _, _ | _, .complex _ _ => .error .typeError
  | .int _, .float _ | .float _, .int _ | .float _, .float _ =>
    if fltOf b = 0 then .error .divisionByZero
    else
      .ok (.float (fltSub (fltOf a)
        (fltMul (fltOf b) (fltOfInt (fltFloor (fltDiv (fltOf a) (fltOf b)))))))
  | _, _ => .error .typeError

/-- Is the idealized float integral (denominator 1)? -/
def isIntegral (q : Flt) : Bool := q.den = 1

/-- Python `**`.  Exact on integral exponents.  A non-integral exponent on
a positive base gives the `transcFloat` placeholder; a negative base with a
non-integral exponent gives a complex value whose non-zero imaginary part
is mathematically guaranteed and whose magnitude is not modelled (the
placeholder `complex 0 1`); complex operands likewise.  No claim evaluates
any placeholder branch. -/
def pyPow (a b : PyVal) : Except PyErr PyVal :=
  match a, b with
  | .int x, .int n =>
    if 0 ≤ n then .ok (.int (x ^ n.toNat))
    else if x = 0 then .error .divisionByZero
    else .ok (.float (fltPowInt (fltOfInt x) n))
  | .inf _, v | .nan, v => if isNumeric v then .ok .nan else .error .typeError
  | v, .inf _ | v, .nan => if isNumeric v then .ok .nan else .error .typeError
  | .complex _ _, v => if isNumeric v then .ok (.complex 0 1) else .error .typeError
  | v, .complex _ _ => if isNumeric v then .ok (.complex 0 1) else .error .typeError
  | .int _, .float _ | .float _, .int _ | .float _, .float _ =>
    let q := fltOf a
    let e := fltOf b
    if isIntegral e then
      if q = 0 ∧ e.num < 0 then .error .divisionByZero
      else .ok (.float (fltPowInt q e.num))
    else if fltLt 0 q then .ok (.float transcFloat)
    else if q = 0 then
      (if fltLt 0 e then .ok (.float 0) else .error .divisionByZero)
    else .ok (.complex 0 1)
  | _, _ => .error .typeError

/-- Python `<<` on ints (a negative count raises `ValueError`, classified
as the spec's domain-error kind; non-int operands raise `TypeError`). -/
def pyShiftL (a b : PyVal) : Except PyErr PyVal :=
  match a, b with
  | .int x, .int n =>
    if n < 0 then .error .domainError else .ok (.int (x * 2 ^ n.toNat))
  | _, _ => .error .typeError

/-- Python `>>` on ints (arithmetic shift, i.e. floored division). -/
def pyShiftR (a b : PyVal) : Except PyErr PyVal :=
  match a, b with
  | .int x, .int n =>
    if n < 0 then .error .domainError else .ok (.int (Int.fdiv x (2 ^ n.toNat)))
  | _, _ => .error .typeError

/-- Python `&`, `|`, `~`-style bitwise ops on ints (two's complement). -/
def pyBitOp (f : ℤ → ℤ → ℤ) (a b : PyVal) : Except PyErr PyVal :=
  match a, b with
  | .int x, .int y => .ok (.int (f x y))
  | _, _ => .error .typeError

/-- Dispatch of `ast.BinOp` operators. -/
def binApply : BOp → PyVal → PyVal → Except PyErr PyVal
  | .add => pyAdd
  | .sub => pySub
  | .mult => pyMul
  | .div => pyDiv
  | .mod => pyMod
  | .pow => pyPow
  | .floordiv => pyFloorDiv
  | .lshift => pyShiftL
  | .rshift => pyShiftR
  | .bitand => pyBitOp Int.land
  | .bitor => pyBitOp Int.lor
  | .bitxor => pyBitOp Int.xor

/-- Python unary `-`. -/
def pyNeg : PyVal → Except PyErr PyVal
  | .int n => .ok (.int (-n))
  | .float q => .ok (.float (fltNeg q))
  | .complex a b => .ok (.complex (fltNeg a) (fltNeg b))
  | .inf s => .ok (.inf (!s))
  | .nan => .ok .nan
  | _ => .error .typeError

/-- Python unary `+`. -/
def pyPos (v : PyVal) : Except PyErr PyVal :=
  if isNumeric v then .ok v else .error .typeError

/-- Indexing of a Python sequence, with negative-index wrap-around and
`IndexError` out of range. -/
def pyIndex (vs : List PyVal) (i : ℤ) : Except PyErr PyVal :=
  let j : ℤ := if i < 0 then i + vs.length else i
  if 0 ≤ j ∧ j < (vs.length : ℤ) then .ok (vs.getD j.toNat (.int 0))
  else .error .indexError

/-- Python subscript `v[i]` for tuples, lists and strings. -/
def pySubscript (v i : PyVal) : Except PyErr PyVal :=
  match v, i with
  | .tuple vs, .int n => pyIndex vs n
  | .list vs, .int n => pyIndex vs n
  | .str s, .int n =>
    match pyIndex (s.toList.map (fun c => .str (String.mk [c]))) n with
    | .ok v => .ok v
    | .error _ => .error .indexError
  | .tuple _, _ | .list _, _ | .str _, _ => .error .typeError
  | _, _ => .error .typeError

/-- Round-half-to-even on the idealized floats (Python's `round`). -/
def roundHalfEven (q : Flt) : ℤ :=
  let f := fltFloor q
  let r := fltSub q (fltOfInt f)
  if fltLt r (fltDec 5 1) then f
  else if fltLt (fltDec 5 1) r then f + 1
  else if f % 2 = 0 then f else f + 1

/-- Strict numeric less-than for `min`/`max` (ints and floats only; other
operand shapes are unorderable, and `inf`/`nan` comparisons are not
exercised by any claim). -/
def numLt (a b : PyVal) : Option Bool :=
  match a, b with
  | .int _, .int _ | .int _, .float _ | .float _, .int _ | .float _, .float _ =>
    some (fltLt (fltOf a) (fltOf b))
  | _, _ => none

/-- Fold used by `min`/`max`: keep the preferred of the running value and
the next element. -/
def foldExtremum (preferNew : Bool) : PyVal → List PyVal → Except PyErr PyVal
  | acc, [] => .ok acc
  | acc, v :: rest =>
    match numLt v acc with
    | some lt =>
      if lt = preferNew then foldExtremum preferNew v rest
      else foldExtremum preferNew acc rest
    | none => .error .typeError

/-- Application of the callable objects of the name tables.  `misc`
(the unclaimed `math` attributes) returns the float placeholder. -/
def applyBuiltin : PyFun → List PyVal → Except PyErr PyVal
  | .fsqrt, [.int n] =>
    if n < 0 then .error .domainError else .ok (.float (fltSqrt (fltOfInt n)))
  | .fsqrt, [.float q] =>
    if fltLt q 0 then .error .domainError else .ok (.float (fltSqrt q))
  | .fsqrt, [.inf false] => .ok (.inf false)
  | .fsqrt, [.nan] => .ok .nan
  | .fsqrt, _ => .error .typeError
  | .ffactorial, [.int n] =>
    if n < 0 then .error .domainError else .ok (.int (Nat.factorial n.toNat))
  | .ffactorial, [.float _] => .error .domainError
  | .ffactorial, _ => .error .typeError
  | .babs, [.int n] => .ok (.int |n|)
  | .babs, [.float q] => .ok (.float (fltAbs q))
  | .babs, [.complex a b] =>
    .ok (.float (fltSqrt (fltAdd (fltMul a a) (fltMul b b))))
  | .babs, [.inf _] => .ok (.inf false)
  | .babs, [.nan] => .ok .nan
  | .babs, _ => .error .typeError
  | .bround, [.int n] => .ok (.int n)
  | .bround, [.float q] => .ok (.int (roundHalfEven q))
  | .bround, [.float q, .int n] =>
    .ok (.float (fltDiv (fltOfInt (roundHalfEven (fltMul q (fltPowInt 10 n))))
      (fltPowInt 10 n)))
  | .bround, [.int m, .int _] => .ok (.int m)
  | .bround, _ => .error .typeError
  | .bpow, [a, b] => pyPow a b
  | .bpow, _ => .error .typeError
  | .bmin, [] => .error .typeError
  | .bmin, [.tuple (v :: vs)] => foldExtremum true v vs
  | .bmin, [.list (v :: vs)] => foldExtremum true v vs
  | .bmin, [.tuple []] => .error .domainError
  | .bmin, [.list []] => .error .domainError
  | .bmin, [_] => .error .typeError
  | .bmin, v :: rest => foldExtremum true v rest
  | .bmax, [] => .error .typeError
  | .bmax, [.tuple (v :: vs)] => foldExtremum false v vs
  | .bmax, [.list (v :: vs)] => foldExtremum false v vs
  | .bmax, [.tuple []] => .error .domainError
  | .bmax, [.list []] => .error .domainError
  | .bmax, [_] => .error .typeError
  | .bmax, v :: rest => foldExtremum false v rest
  | .fsin, [v] | .fcos, [v] | .ftan, [v] | .fexp, [v] =>
    match v with
    | .int _ | .float _ => .ok (.float transcFloat)
    | .inf _ | .nan => .ok .nan
    | _ => .error .typeError
  | .fsin, _ | .fcos, _ | .ftan, _ | .fexp, _ => .error .typeError
  | .flog, [v] | .flog10, [v] | .flog2, [v] =>
    match v with
    | .int _ | .float _ =>
      if fltLt 0 (fltOf v) then .ok (.float transcFloat) else .error .domainError
    | .inf false => .ok (.inf false)
    | .nan => .ok .nan
    | _ => .error .typeError
  | .flog, [v, b] =>
    match v, b with
    | .int _, .int _ | .int _, .float _ | .float _, .int _ | .float _, .float _ =>
      if fltLt 0 (fltOf v) ∧ fltLt 0 (fltOf b) then .ok (.float transcFloat)
      else .error .domainError
    | _, _ => .error .typeError
  | .flog, _ | .flog10, _ | .flog2, _ => .error .typeError
  | .misc _, _ => .ok (.float transcFloat)

/-- Value of an `ast.Constant`. -/
def constVal : PyConst → PyVal
  | .int n => .int n
  | .float q => .float q
  | .complex a b => .complex a b
  | .str s => .str s

/-- Left-to-right evaluation of an argument/element list, failing fast,
parameterized by the evaluator for one expression. -/
def evalArgsWith (rec : PyExpr → Except PyErr PyVal) :
    List PyExpr → Except PyErr (List PyVal)
  | [] => .ok []
  | e :: rest =>
    match rec e with
    | .error er => .error er
    | .ok v =>
      match evalArgsWith rec rest with
      | .error er => .error er
      | .ok vs => .ok (v :: vs)

/-- One layer of `eval` on the compiled tree, parameterized by the
evaluator for subexpressions.  `attribute` is unreachable: both variants'
node walks reject `ast.Attribute` before evaluation. -/
def evalStep (tbl : List (String × PyVal)) (rec : PyExpr → Except PyErr PyVal) :
    PyExpr → Except PyErr PyVal
  | .const k => .ok (constVal k)
  | .name id =>
    match lookupName tbl id with
    | some v => .ok v
    | none => .error (.unknownName id)
  | .unaryOp .usub e =>
    match rec e with
    | .ok v => pyNeg v
    | .error er => .error er
  | .unaryOp .uadd e =>
    match rec e with
    | .ok v => pyPos v
    | .error er => .error er
  | .binOp op l r =>
    match rec l with
    | .error er => .error er
    | .ok lv =>
      match rec r with
      | .error er => .error er
      | .ok rv => binApply op lv rv
  | .call f args =>
    match rec f with
    | .error er => .error er
    | .ok fv =>
      match evalArgsWith rec args with
      | .error er => .error er
      | .ok avs =>
        match fv with
        | .builtin t => applyBuiltin t avs
        | _ => .error .typeError
  | .attribute _ _ => .error (.disallowedConstruct "Attribute")
  | .subscript v i =>
    match rec v with
    | .error er => .error er
    | .ok vv =>
      match rec i with
      | .error er => .error er
      | .ok iv => pySubscript vv iv
  | .tuple es =>
    match evalArgsWith rec es with
    | .error er => .error er
    | .ok vs => .ok (.tuple vs)
  | .list es =>
    match evalArgsWith rec es with
    | .error er => .error er
    | .ok vs => .ok (.list vs)

/-- Fuel-structural evaluator; fuel at least the expression depth (bounded
by the token count, hence by the input length) is exhaustive. -/
def evalE (tbl : List (String × PyVal)) : ℕ → PyExpr → Except PyErr PyVal
  | 0, _ => .error .fuelOut
  | fuel + 1, e => evalStep tbl (evalE tbl fuel) e

/-- Model of Python's `str.strip` (whitespace at both ends removed). -/
def pyStripChars (cs : List Char) : List Char :=
  ((cs.dropWhile (fun c => isSpaceChar c)).reverse.dropWhile
    (fun c => isSpaceChar c)).reverse

/-- Model of Python's `str.strip` on strings. -/
def pyStrip (s : String) : String := String.mk (pyStripChars s.toList)

/-- One pass of Python's `str.replace`: if the (non-empty) pattern matches
here, consume it; otherwise move one character. -/
def dropMatch : List Char → List Char → Option (List Char)
  | [], cs => some cs
  | _ :: _, [] => none
  | p :: ps, c :: cs => if c = p then dropMatch ps cs else none

/-- Fuelled worker of `pyReplace` (left-to-right, non-overlapping). -/
def replChars : ℕ → List Char → List Char → List Char → List Char
  | 0, _, _, _ => []
  | _ + 1, [], _, _ => []
  | fuel + 1, c :: rest, pat, rep =>
    match dropMatch pat (c :: rest) with
    | some rest2 => rep ++ replChars fuel rest2 pat rep
    | none => c :: replChars fuel rest pat rep

/-- Model of Python's `str.replace` for a non-empty pattern. -/
def pyReplace (s pat rep : String) : String :=
  String.mk (replChars (s.length + 1) s.toList pat.toList rep.toList)

/-- Post-processing of `SafeEvaluator.evaluate` (Main.py lines 70-75): a
complex result with zero imaginary part becomes its real part, any other
complex result is the "Complex numbers not supported" failure. -/
def complexFinish : PyVal → Except PyErr PyVal
  | .complex re im => if im = 0 then .ok (.float re) else .error .complexResult
  | v => .ok v

namespace SafeEvaluator

/-- Normalization of Main.py line 54.  The file's replace targets are, as
byte inspection shows, the mojibake sequences `U+00C3 U+2014`, `U+00C3
U+00B7` and `U+00CF U+20AC` (the UTF-8 bytes of `×`, `÷`, `π` mis-decoded
as cp1252), not the real glyphs; only the caret replacement `^` → `**`
targets the character the specification names. -/
def normalizeExpr (s : String) : String :=
  pyReplace (pyReplace (pyReplace (pyReplace s "Ã—" "*")
    "Ã·" "/") "^" "**") "Ï€" "pi"

/-- Model of `SafeEvaluator.evaluate` (Main.py lines 47-75): empty check,
strip, normalize, parse, walk-validate, evaluate, complex post-check. -/
def evaluate (s : String) : Except PyErr PyVal :=
  let t := pyStrip s
  if t = "" then .error .emptyExpression
  else
    let n := normalizeExpr t
    match pyParse n with
    | .error _ => .error .syntaxError
    | .ok e =>
      match walkCheck ALLOWED_NODES ALLOWED_NAMES (n.length + 1) e with
      | .error er => .error er
      | .ok _ =>
        match evalE ALLOWED_NAMES (n.length + 1) e with
        | .error er => .error er
        | .ok v => complexFinish v

end SafeEvaluator

namespace Reservation

/-- Model of `safe_eval` (Reservation.py lines 36-50): replace the real
glyphs `×`, `÷`, `^`, parse, walk-validate, evaluate; note there is no
empty check, no strip, and no complex post-check in this variant. -/
def safe_eval (s : String) : Except PyErr PyVal :=
  let n := pyReplace (pyReplace (pyReplace s "×" "*") "÷" "/") "^" "**"
  match pyParse n with
  | .error _ => .error .syntaxError
  | .ok e =>
    match walkCheck ALLOWED_NODES ALLOWED_NAMES (n.length + 1) e with
    | .error er => .error er
    | .ok _ => evalE ALLOWED_NAMES (n.length + 1) e

end Reservation

example : SafeEvaluator.evaluate "2*3" = .ok (.int 6) := rfl
example : SafeEvaluator.evaluate "5/0" = .error .divisionByZero := rfl
example : SafeEvaluator.evaluate "sqrt(16)" = .ok (.float 4) := rfl
example : SafeEvaluator.evaluate "factorial(5)" = .ok (.int 120) := rfl
example : SafeEvaluator.evaluate "factorial(-1)" = .error .domainError := rfl
example : SafeEvaluator.evaluate "__import__('os')" = .error (.unknownName "__import__") := rfl
example : SafeEvaluator.evaluate "os.system('x')" = .error (.disallowedConstruct "Attribute") := rfl
example : SafeEvaluator.evaluate "0j" = .ok (.float 0) := rfl
example : SafeEvaluator.evaluate "1j" = .error .complexResult := rfl
example : SafeEvaluator.evaluate "2×3" = .error .syntaxError := rfl
example : SafeEvaluator.evaluate "2Ã—3" = .ok (.int 6) := rfl
example : SafeEvaluator.evaluate "tau" = .ok (.float (fltDec 6283185307179586 15)) := rfl
example : SafeEvaluator.evaluate "   " = .error .emptyExpression := rfl
example : Reservation.safe_eval "(1,2)[0]" = .ok (.int 1) := rfl
example : Reservation.safe_eval "1j" = .ok (.complex 0 1) := rfl
example : Reservation.safe_eval "" = .error .syntaxError := rfl
example : Reservation.safe_eval "2×3" = .ok (.int 6) := rfl
example : Reservation.safe_eval "π" = .error (.unknownName "π") := rfl

namespace NumberConverter

/-- The keys of the `BASES` dict (Main.py lines 136-141). -/
inductive BaseName where
  | Binary : BaseName
  | Octal : BaseName
  | Decimal : BaseName
  | Hexadecimal : BaseName
deriving DecidableEq, Repr

/-- The `BASES` dict. -/
def BASES : BaseName → ℕ
  | .Binary => 2
  | .Octal => 8
  | .Decimal => 10
  | .Hexadecimal => 16

/-- Base name as a string (used in the `Invalid {from_base} number`
message). -/
def baseLabel : BaseName → String
  | .Binary => "Binary"
  | .Octal => "Octal"
  | .Decimal => "Decimal"
  | .Hexadecimal => "Hexadecimal"

/-- Model of `value.strip().replace(' ', '')`. -/
def stripSpaces (s : String) : String :=
  String.mk ((pyStripChars s.toList).filter (fun c => c ≠ ' '))

/-- The character class of each base's validation regex (`^[01]+$`,
`^[0-7]+$`, `\d`, `^[0-9A-Fa-f]+$`), written extensionally. -/
def validDigit : BaseName → Char → Bool
  | .Binary, c => ['0', '1'].contains c
  | .Octal, c => ['0', '1', '2', '3', '4', '5', '6', '7'].contains c
  | .Decimal, c =>
    ['0', '1', '2', '3', '4', '5', '6', '7', '8', '9'].contains c
  | .Hexadecimal, c =>
    ['0', '1', '2', '3', '4', '5', '6', '7', '8', '9',
     'A', 'B', 'C', 'D', 'E', 'F', 'a', 'b', 'c', 'd', 'e', 'f'].contains c

/-- Model of `NumberConverter.validate_input` (Main.py lines 143-161):
strip spaces, reject empty, then the per-base regex; only the Decimal
regex `^-?\d+$` admits a leading sign. -/
def validate_input (value : String) (b : BaseName) : Bool :=
  match (stripSpaces value).toList with
  | [] => false
  | '-' :: rest =>
    b = .Decimal && !rest.isEmpty && rest.all (validDigit .Decimal)
  | cs => cs.all (validDigit b)

/-- Digit value, case-insensitive, as `int(value, base)` reads digits. -/
def digitVal (c : Char) : ℕ :=
  if c.isDigit then c.toNat - 48
  else if 'a' ≤ c && c ≤ 'f' then c.toNat - 87
  else if 'A' ≤ c && c ≤ 'F' then c.toNat - 55
  else 0

/-- Digit characters as the final rendering produces them: `bin`/`oct`/
`str` digits, and `hex(...).upper()` letters. -/
def digitChar (d : ℕ) : Char :=
  ['0', '1', '2', '3', '4', '5', '6', '7', '8', '9',
   'A', 'B', 'C', 'D', 'E', 'F'].getD d '0'

/-- Value of an unsigned digit string in base `b` (Horner fold, as
`int(value, base)`). -/
def parseNatDigits (b : ℕ) (cs : List Char) : ℕ :=
  cs.foldl (fun a c => a * b + digitVal c) 0

/-- Model of `int(value, base)` on a validated string (optional leading
sign, possible only for base 10). -/
def pyIntOfDigits (b : ℕ) : List Char → ℤ
  | '-' :: rest => -(parseNatDigits b rest : ℤ)
  | cs => (parseNatDigits b cs : ℤ)

/-- Little-endian digit list by repeated division (kernel-reducible twin
of `Nat.digits`; fuel at least `n` is exhaustive). -/
def toDigitsLE (b : ℕ) : ℕ → ℕ → List ℕ
  | 0, _ => []
  | _ + 1, 0 => []
  | fuel + 1, n => n % b :: toDigitsLE b fuel (n / b)

/-- Python's most-significant-first rendering of a nonnegative integer:
`bin(n)[2:]`, `oct(n)[2:]`, `str(n)`, `hex(n)[2:].upper()` — minimal
digits, `"0"` for zero. -/
def renderNatStr (b n : ℕ) : List Char :=
  if n = 0 then ['0'] else (toDigitsLE b n n).reverse.map digitChar

/-- Model of `NumberConverter.convert` (Main.py lines 163-182): strip,
validate (else `Invalid ... number`), reinterpret via `int(value, base)`,
re-render in the target base with the sign prepended for negatives. -/
def convert (value : String) (from_base to_base : BaseName) :
    Except PyErr String :=
  let v := stripSpaces value
  if ¬ validate_input v from_base then
    .error (.invalidDigits (baseLabel from_base))
  else
    let n := pyIntOfDigits (BASES from_base) v.toList
    .ok (if n < 0 then
          String.mk ('-' :: renderNatStr (BASES to_base) n.natAbs)
         else String.mk (renderNatStr (BASES to_base) n.toNat))

/-- Uppercasing of a lowercase letter (canonical casing). -/
def upperChar (c : Char) : Char :=
  if 'a' ≤ c && c ≤ 'z' then Char.ofNat (c.toNat - 32) else c

/-- Normal form named by the round-trip claim, following the
specification's words: leading zeros stripped (an all-zero string
collapses to `"0"`), canonical (upper) casing applied, a leading sign
preserved. -/
def normalizeDigits (s : String) : String :=
  let norm : List Char → List Char := fun cs =>
    let t := cs.dropWhile (fun c => c = '0')
    if t.isEmpty then ['0'] else t.map upperChar
  match s.toList with
  | '-' :: rest => String.mk ('-' :: norm rest)
  | cs => String.mk (norm cs)

end NumberConverter

example : NumberConverter.convert "ff" .Hexadecimal .Binary = .ok "11111111" := rfl
example : NumberConverter.convert "11111111" .Binary .Hexadecimal = .ok "FF" := rfl
example : NumberConverter.convert "-1" .Decimal .Binary = .ok "-1" := rfl
example : NumberConverter.convert "-1" .Binary .Decimal =
    .error (.invalidDigits "Binary") := rfl
example : NumberConverter.convert "007" .Octal .Binary = .ok "111" := rfl
example : NumberConverter.convert "111" .Binary .Octal = .ok "7" := rfl
example : NumberConverter.normalizeDigits "007" = "7" := rfl
example : NumberConverter.normalizeDigits "ff" = "FF" := rfl
example : NumberConverter.normalizeDigits "000" = "0" := rfl

/-- Observer: did evaluation succeed? -/
def exceptIsOk : Except PyErr PyVal → Bool
  | .ok _ => true
  | .error _ => false

/-- Observer: is the failure of the UnknownName or SyntaxError kind (the
two kinds the whitelist-enforcement claim names)? -/
def isUnknownOrSyntax : Except PyErr PyVal → Bool
  | .error (.unknownName _) => true
  | .error .syntaxError => true
  | _ => false

/-- Does this walked node trip the validation loop: a node class outside
the whitelist, or a `Name` absent from the names dictionary? -/
def badNodeB (kinds : List String) (tbl : List (String × PyVal)) (n : PyExpr) : Bool :=
  !(kinds.contains (kindName n)) ||
  (match n with
   | .name id => (lookupName tbl id).isNone
   | _ => false)

/-- Errors the validation loop can produce. -/
def errIsWhitelist (er : PyErr) : Prop :=
  (∃ k, er = .disallowedConstruct k) ∨ (∃ id, er = .unknownName id)

theorem checkNode_error_shape (kinds : List String) (tbl : List (String × PyVal))
    (n : PyExpr) (er : PyErr) (h : checkNode kinds tbl n = .error er) :
    errIsWhitelist er := by
  unfold checkNode at h
  split at h
  · exact Or.inl ⟨_, (Except.error.inj h).symm⟩
  · split at h
    · split at h
      · exact absurd h (by simp)
      · exact Or.inr ⟨_, (Except.error.inj h).symm⟩
    · exact absurd h (by simp)

theorem checkNode_err_of_bad (kinds : List String) (tbl : List (String × PyVal))
    (n : PyExpr) (h : badNodeB kinds tbl n = true) :
    ∃ er, checkNode kinds tbl n = .error er := by
  unfold badNodeB at h
  unfold checkNode
  by_cases hk : kindName n ∈ kinds
  · simp [hk] at h ⊢
    cases n <;> simp_all
  · simp [hk]

theorem checkNodes_err_of_any (kinds : List String) (tbl : List (String × PyVal)) :
    ∀ l : List PyExpr, l.any (badNodeB kinds tbl) = true →
    ∃ er, checkNodes kinds tbl l = .error er ∧ errIsWhitelist er := by
  intro l
  induction l with
  | nil => intro h; simp at h
  | cons e rest ih =>
    intro h
    unfold checkNodes
    cases hc : checkNode kinds tbl e with
    | error er => exact ⟨er, rfl, checkNode_error_shape kinds tbl e er hc⟩
    | ok _ =>
      rcases List.any_eq_true.mp h with ⟨n, hn, hbad⟩
      cases List.mem_cons.mp hn with
      | inl he =>
        subst he
        rcases checkNode_err_of_bad kinds tbl n hbad with ⟨er, her⟩
        rw [her] at hc
        exact absurd hc (by simp)
      | inr ht =>
        exact ih (List.any_eq_true.mpr ⟨n, ht, hbad⟩)

theorem bfsNodes_nil (f : ℕ) : bfsNodes f [] = [] := by
  cases f <;> rfl

theorem pyParse_empty : pyParse (SafeEvaluator.normalizeExpr "") = .error .syntaxError := rfl

theorem strip_ne_of_parse_ok (s : String) (e : PyExpr)
    (hp : pyParse (SafeEvaluator.normalizeExpr (pyStrip s)) = .ok e) :
    ¬ (pyStrip s = "") := by
  intro h0
  rw [h0, pyParse_empty] at hp
  exact Except.noConfusion hp

theorem evaluate_unfold (s : String) (h : ¬ (pyStrip s = "")) :
    SafeEvaluator.evaluate s =
      match pyParse (SafeEvaluator.normalizeExpr (pyStrip s)) with
      | .error _ => .error .syntaxError
      | .ok e =>
        match walkCheck SafeEvaluator.ALLOWED_NODES SafeEvaluator.ALLOWED_NAMES
            ((SafeEvaluator.normalizeExpr (pyStrip s)).length + 1) e with
        | .error er => .error er
        | .ok _ =>
          match evalE SafeEvaluator.ALLOWED_NAMES
              ((SafeEvaluator.normalizeExpr (pyStrip s)).length + 1) e with
          | .error er => .error er
          | .ok v => complexFinish v := by
  unfold SafeEvaluator.evaluate
  simp only [if_neg h]

/-- C3: the Reservation.py variant's `ALLOWED_NODES` whitelist includes
`Subscript`, `Index` and `Slice` (unlike Main.py's), so `safe_eval` does
not reject subscript expressions: `safe_eval "(1,2)[0]"` evaluates the
subscript and returns the selected element `1`. -/
theorem claimC3_theorem :
    Reservation.ALLOWED_NODES.contains "Subscript" = true ∧
    Reservation.ALLOWED_NODES.contains "Index" = true ∧
    Reservation.ALLOWED_NODES.contains "Slice" = true ∧
    SafeEvaluator.ALLOWED_NODES.contains "Subscript" = false ∧
    Reservation.safe_eval "(1,2)[0]" = .ok (.int 1) :=
  ⟨rfl, rfl, rfl, rfl, rfl⟩

/-- C5 (amended): in Main.py, every input that is empty or whitespace-only
after trimming fails with `EmptyExpression` before parsing; the
Reservation.py variant has no such check (its `safe_eval` hands the empty
string to the parser, which fails with the SyntaxError kind — see the
counterexample). -/
theorem claimC5_theorem (s : String) (h : pyStrip s = "") :
    SafeEvaluator.evaluate s = .error .emptyExpression := by
  unfold SafeEvaluator.evaluate
  rw [h]
  rfl

/-- Witness for C5 at the whitespace input `"  "`. -/
theorem claimC5_witness :
    pyStrip "  " = "" ∧ SafeEvaluator.evaluate "  " = .error .emptyExpression :=
  ⟨rfl, claimC5_theorem "  " rfl⟩

/-- Counterexample to C5 as stated: the Reservation variant's `safe_eval`
fails on the empty input with the SyntaxError kind coming from the parser,
not with `EmptyExpression`. -/
theorem claimC5_counterexample :
    Reservation.safe_eval "" = .error .syntaxError ∧
    PyErr.syntaxError ≠ PyErr.emptyExpression :=
  ⟨rfl, by decide⟩

/-- C7 (amended): Main.py's normalization replaces the two-character
mojibake sequences `Ã—`, `Ã·`, `Ï€` (the UTF-8 bytes of `×`, `÷`, `π`
mis-decoded) and the caret, not the real glyphs: `evaluate "2Ã—3"` is `6`
and `evaluate "2^2"` is `4`, but `evaluate "2×3"` is a SyntaxError while
`evaluate "2*3"` is `6`.  Reservation.py's `safe_eval` does replace the
real glyphs `×`, `÷`, `^` (so `safe_eval "2×3"` equals `safe_eval "2*3"`),
but never replaces `π`: `safe_eval "π"` fails with `UnknownName` while
`safe_eval "pi"` resolves. -/
theorem claimC7_theorem :
    Reservation.safe_eval "2×3" = .ok (.int 6) ∧
    Reservation.safe_eval "2*3" = .ok (.int 6) ∧
    Reservation.safe_eval "2÷1" = .ok (.float 2) ∧
    Reservation.safe_eval "2^2" = .ok (.int 4) ∧
    Reservation.safe_eval "π" = .error (.unknownName "π") ∧
    Reservation.safe_eval "pi" = .ok (.float (fltDec 3141592653589793 15)) ∧
    SafeEvaluator.evaluate "2Ã—3" = .ok (.int 6) ∧
    SafeEvaluator.evaluate "2^2" = .ok (.int 4) ∧
    SafeEvaluator.evaluate "2×3" = .error .syntaxError ∧
    SafeEvaluator.evaluate "2*3" = .ok (.int 6) :=
  ⟨rfl, rfl, rfl, rfl, rfl, rfl, rfl, rfl, rfl, rfl⟩

/-- Counterexample to C7 as stated: `evaluate "2×3"` and `evaluate "2*3"`
do not produce identical results in Main.py — the glyph input is a
SyntaxError because the source replaces the mojibake sequence `Ã—`, not
`×`. -/
theorem claimC7_counterexample :
    SafeEvaluator.evaluate "2×3" = .error .syntaxError ∧
    SafeEvaluator.evaluate "2*3" = .ok (.int 6) ∧
    exceptIsOk (SafeEvaluator.evaluate "2×3") = false ∧
    exceptIsOk (SafeEvaluator.evaluate "2*3") = true :=
  ⟨rfl, rfl, rfl, rfl⟩

/-- C8: `evaluate "5/0"` (in both variants) fails with `DivisionByZero`,
and in general a true division whose right operand evaluates to a numeric
zero fails with `DivisionByZero` whenever its left operand evaluated to a
number, never yielding a numeric result. -/
theorem claimC8_theorem :
    SafeEvaluator.evaluate "5/0" = .error .divisionByZero ∧
    Reservation.safe_eval "5/0" = .error .divisionByZero ∧
    ∀ (tbl : List (String × PyVal)) (fuel : ℕ) (l r : PyExpr) (v z : PyVal),
      evalE tbl fuel l = .ok v → isNumeric v = true →
      evalE tbl fuel r = .ok z → isZeroNum z = true →
      evalE tbl (fuel + 1) (.binOp .div l r) = .error .divisionByZero := by
  refine ⟨rfl, rfl, ?_⟩
  intro tbl fuel l r v z hl hv hr hz
  have hzn : isNumeric z = true := by
    cases z <;> simp_all [isZeroNum, isNumeric]
  show evalStep tbl (evalE tbl fuel) (.binOp .div l r) = .error .divisionByZero
  simp only [evalStep, hl, hr, binApply]
  unfold pyDiv
  simp [hv, hzn, hz]

/-- Witness for C8 at `5 / 0` on the Main.py name table. -/
theorem claimC8_witness :
    evalE SafeEvaluator.ALLOWED_NAMES 1 (.const (.int 5)) = .ok (.int 5) ∧
    isNumeric (.int 5) = true ∧
    evalE SafeEvaluator.ALLOWED_NAMES 1 (.const (.int 0)) = .ok (.int 0) ∧
    isZeroNum (.int 0) = true ∧
    evalE SafeEvaluator.ALLOWED_NAMES 2
      (.binOp .div (.const (.int 5)) (.const (.int 0))) = .error .divisionByZero :=
  ⟨rfl, rfl, rfl, rfl,
   claimC8_theorem.2.2 SafeEvaluator.ALLOWED_NAMES 1 _ _ _ _ rfl rfl rfl rfl⟩

/-- C9: `evaluate "sqrt(16)"` is `4` and `evaluate "factorial(5)"` is
`120` in both variants; `evaluate "factorial(-1)"` fails with the
DomainError kind, and in general the factorial callable fails with
DomainError on every negative integer argument and on every float
argument (CPython raises `ValueError`/`TypeError` depending on version;
both are the specification's DomainError kind). -/
theorem claimC9_theorem :
    SafeEvaluator.evaluate "sqrt(16)" = .ok (.float 4) ∧
    SafeEvaluator.evaluate "factorial(5)" = .ok (.int 120) ∧
    SafeEvaluator.evaluate "factorial(-1)" = .error .domainError ∧
    Reservation.safe_eval "sqrt(16)" = .ok (.float 4) ∧
    Reservation.safe_eval "factorial(5)" = .ok (.int 120) ∧
    Reservation.safe_eval "factorial(-1)" = .error .domainError ∧
    (∀ n : ℤ, n < 0 → applyBuiltin .ffactorial [.int n] = .error .domainError) ∧
    (∀ q : Flt, applyBuiltin .ffactorial [.float q] = .error .domainError) := by
  refine ⟨rfl, rfl, rfl, rfl, rfl, rfl, ?_, fun q => rfl⟩
  intro n hn
  simp [applyBuiltin, hn]

/-- Witness for C9's universal parts at the arguments `-1` and `2.5`. -/
theorem claimC9_witness :
    ((-1 : ℤ) < 0 ∧ applyBuiltin .ffactorial [.int (-1)] = .error .domainError) ∧
    applyBuiltin .ffactorial [.float (fltDec 25 1)] = .error .domainError :=
  ⟨⟨by decide, claimC9_theorem.2.2.2.2.2.2.1 (-1) (by decide)⟩,
   claimC9_theorem.2.2.2.2.2.2.2 (fltDec 25 1)⟩

/-- C10: if Main.py's evaluation produces a complex value with imaginary
part exactly zero, `evaluate` does not fail: it returns the real part as a
float (Main.py lines 70-75). -/
theorem claimC10_theorem (s : String) (e : PyExpr) (re : Flt)
    (hp : pyParse (SafeEvaluator.normalizeExpr (pyStrip s)) = .ok e)
    (hw : walkCheck SafeEvaluator.ALLOWED_NODES SafeEvaluator.ALLOWED_NAMES
      ((SafeEvaluator.normalizeExpr (pyStrip s)).length + 1) e = .ok ())
    (he : evalE SafeEvaluator.ALLOWED_NAMES
      ((SafeEvaluator.normalizeExpr (pyStrip s)).length + 1) e = .ok (.complex re 0)) :
    SafeEvaluator.evaluate s = .ok (.float re) := by
  rw [evaluate_unfold s (strip_ne_of_parse_ok s e hp)]
  simp only [hp, hw, he]
  rfl

/-- Witness for C10 at the input `"0j"` (the complex literal `0j`). -/
theorem claimC10_witness :
    pyParse (SafeEvaluator.normalizeExpr (pyStrip "0j")) = .ok (.const (.complex 0 0)) ∧
    SafeEvaluator.evaluate "0j" = .ok (.float 0) :=
  ⟨rfl, claimC10_theorem "0j" (.const (.complex 0 0)) 0 rfl rfl rfl⟩

/-- C4 (amended): Main.py's `evaluate` fails with `ComplexResult` whenever
evaluation produces a complex value with non-zero imaginary part (e.g. on
`"1j"`), but the Reservation.py variant performs no complex-result check
at all: its `safe_eval` returns the complex value unchanged. -/
theorem claimC4_theorem :
    (∀ (s : String) (e : PyExpr) (re im : Flt),
      pyParse (SafeEvaluator.normalizeExpr (pyStrip s)) = .ok e →
      walkCheck SafeEvaluator.ALLOWED_NODES SafeEvaluator.ALLOWED_NAMES
        ((SafeEvaluator.normalizeExpr (pyStrip s)).length + 1) e = .ok () →
      evalE SafeEvaluator.ALLOWED_NAMES
        ((SafeEvaluator.normalizeExpr (pyStrip s)).length + 1) e = .ok (.complex re im) →
      im ≠ 0 →
      SafeEvaluator.evaluate s = .error .complexResult) ∧
    SafeEvaluator.evaluate "1j" = .error .complexResult ∧
    Reservation.safe_eval "1j" = .ok (.complex 0 1) := by
  refine ⟨?_, rfl, rfl⟩
  intro s e re im hp hw he him
  rw [evaluate_unfold s (strip_ne_of_parse_ok s e hp)]
  simp only [hp, hw, he]
  simp [complexFinish, him]

/-- Witness for C4's universal part at the input `"1j"`. -/
theorem claimC4_witness :
    pyParse (SafeEvaluator.normalizeExpr (pyStrip "1j")) = .ok (.const (.complex 0 1)) ∧
    (1 : Flt) ≠ 0 ∧
    SafeEvaluator.evaluate "1j" = .error .complexResult :=
  ⟨rfl, by decide, claimC4_theorem.1 "1j" (.const (.complex 0 1)) 0 1 rfl rfl rfl (by decide)⟩

/-- Counterexample to C4 as stated: `safe_eval "1j"` — an expression whose
value is complex with non-zero imaginary part — succeeds and returns the
complex value instead of failing with `ComplexResult`. -/
theorem claimC4_counterexample :
    Reservation.safe_eval "1j" = .ok (.complex 0 1) ∧
    exceptIsOk (Reservation.safe_eval "1j") = true :=
  ⟨rfl, rfl⟩

/-- The name table the specification documents: constants `pi`, `e` and
fourteen functions.  This definition follows the claim's words, for
comparison with the code's tables. -/
def specListedNames : List String :=
  ["pi", "e", "sqrt", "sin", "cos", "tan", "log", "log10", "log2", "exp",
   "abs", "round", "pow", "factorial", "min", "max"]

theorem walkCheck_name (kinds : List String) (tbl : List (String × PyVal))
    (L : ℕ) (id : String) (hk : "Name" ∈ kinds)
    (hl : lookupName tbl id = none) :
    walkCheck kinds tbl (L + 1) (.name id) = .error (.unknownName id) := by
  unfold walkCheck
  have hb : bfsNodes (L + 1) [PyExpr.name id] = [PyExpr.name id] := by
    show PyExpr.name id :: bfsNodes L ([] ++ nodeChildren (.name id)) = _
    simp [nodeChildren, bfsNodes_nil]
  rw [hb]
  unfold checkNodes checkNode
  simp [kindName, hk, hl]

/-- C2 (amended): every identifier of the spec's documented table resolves
in Main.py, but the code's table is the full set of public `math`
attributes plus the updated builtins, a strict superset — e.g. `tau`
resolves though it is outside the documented table; the Reservation
variant's update omits `min` and `max`, so those two do not resolve there;
and any input that parses to a bare identifier outside the table fails
with `UnknownName` naming that identifier. -/
theorem claimC2_theorem :
    (∀ nm ∈ specListedNames,
      (lookupName SafeEvaluator.ALLOWED_NAMES nm).isSome = true) ∧
    (lookupName SafeEvaluator.ALLOWED_NAMES "tau").isSome = true ∧
    specListedNames.contains "tau" = false ∧
    lookupName Reservation.ALLOWED_NAMES "min" = none ∧
    lookupName Reservation.ALLOWED_NAMES "max" = none ∧
    (∀ s id : String,
      pyParse (SafeEvaluator.normalizeExpr (pyStrip s)) = .ok (.name id) →
      lookupName SafeEvaluator.ALLOWED_NAMES id = none →
      SafeEvaluator.evaluate s = .error (.unknownName id)) := by
  refine ⟨by decide, rfl, rfl, rfl, rfl, ?_⟩
  intro s id hp hl
  rw [evaluate_unfold s (strip_ne_of_parse_ok s _ hp)]
  simp only [hp,
    walkCheck_name SafeEvaluator.ALLOWED_NODES SafeEvaluator.ALLOWED_NAMES
      (SafeEvaluator.normalizeExpr (pyStrip s)).length id (by decide) hl]

/-- Witness for C2's universal part at the unknown identifier `"spam"`. -/
theorem claimC2_witness :
    pyParse (SafeEvaluator.normalizeExpr (pyStrip "spam")) = .ok (.name "spam") ∧
    lookupName SafeEvaluator.ALLOWED_NAMES "spam" = none ∧
    SafeEvaluator.evaluate "spam" = .error (.unknownName "spam") :=
  ⟨rfl, rfl, claimC2_theorem.2.2.2.2.2 "spam" "spam" rfl rfl⟩

/-- Counterexample to C2 as stated: `tau` is outside the claimed table yet
`evaluate "tau"` resolves it and succeeds instead of failing with
`UnknownName`. -/
theorem claimC2_counterexample :
    specListedNames.contains "tau" = false ∧
    SafeEvaluator.evaluate "tau" = .ok (.float (fltDec 6283185307179586 15)) ∧
    exceptIsOk (SafeEvaluator.evaluate "tau") = true :=
  ⟨rfl, rfl, rfl⟩

/-- Does a node offend the whitelist in the specific ways claim C1 names:
a dotted-attribute node, or a `Name` outside Main.py's table? -/
def offendsMain (n : PyExpr) : Bool :=
  kindName n = "Attribute" ||
  (match n with
   | .name id => (lookupName SafeEvaluator.ALLOWED_NAMES id).isNone
   | _ => false)

theorem offendsMain_bad (n : PyExpr) (h : offendsMain n = true) :
    badNodeB SafeEvaluator.ALLOWED_NODES SafeEvaluator.ALLOWED_NAMES n = true := by
  unfold offendsMain at h
  unfold badNodeB
  cases n <;> first
  | (simp_all [kindName]; done)
  | (simp_all [kindName]; decide)

/-- C1 (amended): `evaluate "__import__('os')"` fails with `UnknownName`
in both variants, but `evaluate "os.system('x')"` fails with the
`DisallowedConstruct` kind (the node walk rejects `ast.Attribute`), not
with UnknownName or SyntaxError; in general, any input that parses to a
tree containing a dotted-attribute node or an identifier outside the table
makes Main.py's `evaluate` fail with one of the whitelist error kinds
(DisallowedConstruct or UnknownName) — it never produces a result and
never applies the named callable. -/
theorem claimC1_theorem :
    SafeEvaluator.evaluate "__import__('os')" = .error (.unknownName "__import__") ∧
    SafeEvaluator.evaluate "os.system('x')" = .error (.disallowedConstruct "Attribute") ∧
    Reservation.safe_eval "__import__('os')" = .error (.unknownName "__import__") ∧
    Reservation.safe_eval "os.system('x')" = .error (.disallowedConstruct "Attribute") ∧
    (∀ (s : String) (e : PyExpr),
      pyParse (SafeEvaluator.normalizeExpr (pyStrip s)) = .ok e →
      (bfsNodes ((SafeEvaluator.normalizeExpr (pyStrip s)).length + 1) [e]).any
        offendsMain = true →
      ∃ er, SafeEvaluator.evaluate s = .error er ∧ errIsWhitelist er) := by
  refine ⟨rfl, rfl, rfl, rfl, ?_⟩
  intro s e hp hbad
  have hbad' : (bfsNodes ((SafeEvaluator.normalizeExpr (pyStrip s)).length + 1) [e]).any
      (badNodeB SafeEvaluator.ALLOWED_NODES SafeEvaluator.ALLOWED_NAMES) = true := by
    rcases List.any_eq_true.mp hbad with ⟨n, hn, ho⟩
    exact List.any_eq_true.mpr ⟨n, hn, offendsMain_bad n ho⟩
  rcases checkNodes_err_of_any SafeEvaluator.ALLOWED_NODES SafeEvaluator.ALLOWED_NAMES
    _ hbad' with ⟨er, her, hshape⟩
  refine ⟨er, ?_, hshape⟩
  rw [evaluate_unfold s (strip_ne_of_parse_ok s e hp)]
  have hwc : walkCheck SafeEvaluator.ALLOWED_NODES SafeEvaluator.ALLOWED_NAMES
      ((SafeEvaluator.normalizeExpr (pyStrip s)).length + 1) e = .error er := her
  simp only [hp, hwc]

/-- Witness for C1's universal part at the input `"zz.a"`, a dotted
attribute access on an unknown name. -/
theorem claimC1_witness :
    pyParse (SafeEvaluator.normalizeExpr (pyStrip "zz.a")) =
      .ok (.attribute (.name "zz") "a") ∧
    (bfsNodes ((SafeEvaluator.normalizeExpr (pyStrip "zz.a")).length + 1)
      [.attribute (.name "zz") "a"]).any offendsMain = true ∧
    ∃ er, SafeEvaluator.evaluate "zz.a" = .error er ∧ errIsWhitelist er :=
  ⟨rfl, rfl, claimC1_theorem.2.2.2.2 "zz.a" (.attribute (.name "zz") "a") rfl rfl⟩

/-- Counterexample to C1 as stated: `evaluate "os.system('x')"` does fail,
but with the DisallowedConstruct kind, which is neither UnknownName nor
SyntaxError. -/
theorem claimC1_counterexample :
    SafeEvaluator.evaluate "os.system('x')" = .error (.disallowedConstruct "Attribute") ∧
    isUnknownOrSyntax (SafeEvaluator.evaluate "os.system('x')") = false :=
  ⟨rfl, rfl⟩

namespace NumberConverter

theorem toDigitsLE_eq (b : ℕ) (hb : 1 < b) :
    ∀ fuel n, n ≤ fuel → toDigitsLE b fuel n = Nat.digits b n := by
  intro fuel
  induction fuel with
  | zero =>
    intro n hn
    interval_cases n
    simp [toDigitsLE]
  | succ f ih =>
    intro n hn
    cases n with
    | zero => simp [toDigitsLE]
    | succ m =>
      rw [Nat.digits_def' hb (Nat.succ_pos m)]
      show (m + 1) % b :: toDigitsLE b f ((m + 1) / b) = _
      rw [ih ((m + 1) / b)
        (Nat.le_of_lt_succ (Nat.lt_of_lt_of_le (Nat.div_lt_self (Nat.succ_pos m) hb) hn))]

theorem digitVal_digitChar (d : ℕ) (h : d < 16) :
    digitVal (digitChar d) = d := by
  interval_cases d <;> rfl

theorem validDigit_digitChar (B : BaseName) (d : ℕ) (h : d < BASES B) :
    validDigit B (digitChar d) = true := by
  cases B <;> simp only [BASES] at h <;> interval_cases d <;> rfl

theorem validDigit_facts (B : BaseName) (c : Char) (h : validDigit B c = true) :
    digitVal c < BASES B ∧ upperChar c = digitChar (digitVal c) ∧
    isSpaceChar c = false ∧ c ≠ '-' ∧ (digitVal c = 0 → c = '0') := by
  have hm : c ∈ (match B with
    | .Binary => ['0', '1']
    | .Octal => ['0', '1', '2', '3', '4', '5', '6', '7']
    | .Decimal => ['0', '1', '2', '3', '4', '5', '6', '7', '8', '9']
    | .Hexadecimal => ['0', '1', '2', '3', '4', '5', '6', '7', '8', '9',
        'A', 'B', 'C', 'D', 'E', 'F', 'a', 'b', 'c', 'd', 'e', 'f']) := by
    cases B <;> simpa [validDigit] using h
  cases B <;> fin_cases hm <;> decide

/-- Horner fold over digit values. -/
def parseNatVals (b : ℕ) (ds : List ℕ) : ℕ :=
  ds.foldl (fun a d => a * b + d) 0

theorem parseNatDigits_eq_vals (b : ℕ) (cs : List Char) :
    parseNatDigits b cs = parseNatVals b (cs.map digitVal) := by
  unfold parseNatDigits parseNatVals
  rw [List.foldl_map]

theorem foldl_horner (b : ℕ) :
    ∀ (ds : List ℕ) (acc : ℕ),
      ds.foldl (fun a d => a * b + d) acc =
        acc * b ^ ds.length + Nat.ofDigits b ds.reverse := by
  intro ds
  induction ds with
  | nil => intro acc; simp [Nat.ofDigits]
  | cons d tl ih =>
    intro acc
    show tl.foldl (fun a d => a * b + d) (acc * b + d) = _
    rw [ih (acc * b + d), List.reverse_cons, Nat.ofDigits_append]
    simp [Nat.ofDigits]
    ring

theorem parseNatVals_eq_ofDigits (b : ℕ) (ds : List ℕ) :
    parseNatVals b ds = Nat.ofDigits b ds.reverse := by
  unfold parseNatVals
  rw [foldl_horner]
  simp

theorem parse_zeros_prefix (b : ℕ) (zs rest : List Char)
    (h : ∀ c ∈ zs, c = '0') :
    parseNatDigits b (zs ++ rest) = parseNatDigits b rest := by
  unfold parseNatDigits
  rw [List.foldl_append]
  have : zs.foldl (fun a c => a * b + digitVal c) 0 = 0 := by
    induction zs with
    | nil => rfl
    | cons z tl ih =>
      have hz : z = '0' := h z (List.mem_cons_self z tl)
      subst hz
      show tl.foldl (fun a c => a * b + digitVal c) (0 * b + digitVal '0') = 0
      have : (0 : ℕ) * b + digitVal '0' = 0 := by simp [digitVal]
      rw [this]
      exact ih (fun c hc => h c (List.mem_cons_of_mem _ hc))
  rw [this]


theorem bases_one_lt (B : BaseName) : 1 < BASES B := by
  cases B <;> decide

theorem bases_le_sixteen (B : BaseName) : BASES B ≤ 16 := by
  cases B <;> decide

theorem renderNatStr_valid (B : BaseName) (n : ℕ) :
    ∀ c ∈ renderNatStr (BASES B) n, validDigit B c = true := by
  intro c hc
  unfold renderNatStr at hc
  by_cases hn : n = 0
  · simp [hn] at hc
    subst hc
    cases B <;> rfl
  · rw [if_neg hn, toDigitsLE_eq (BASES B) (bases_one_lt B) n n (le_refl n)] at hc
    rcases List.mem_map.mp hc with ⟨d, hd, hdc⟩
    have hdb : d < BASES B :=
      Nat.digits_lt_base (bases_one_lt B) (List.mem_reverse.mp hd)
    rw [← hdc]
    exact validDigit_digitChar B d hdb

theorem renderNatStr_ne_nil (B : BaseName) (n : ℕ) :
    renderNatStr (BASES B) n ≠ [] := by
  unfold renderNatStr
  by_cases hn : n = 0
  · simp [hn]
  · rw [if_neg hn, toDigitsLE_eq (BASES B) (bases_one_lt B) n n (le_refl n)]
    simp [Nat.digits_ne_nil_iff_ne_zero.mpr hn]

theorem parse_render (B : BaseName) (n : ℕ) :
    parseNatDigits (BASES B) (renderNatStr (BASES B) n) = n := by
  unfold renderNatStr
  by_cases hn : n = 0
  · subst hn
    cases B <;> rfl
  · rw [if_neg hn, toDigitsLE_eq (BASES B) (bases_one_lt B) n n (le_refl n),
      parseNatDigits_eq_vals, List.map_map]
    have hmm : ∀ d ∈ (Nat.digits (BASES B) n).reverse,
        (digitVal ∘ digitChar) d = id d := by
      intro d hd
      have hdb : d < BASES B :=
        Nat.digits_lt_base (bases_one_lt B) (List.mem_reverse.mp hd)
      have hd16 : d < 16 := lt_of_lt_of_le hdb (bases_le_sixteen B)
      simp [digitVal_digitChar d hd16]
    rw [List.map_congr_left hmm, List.map_id, parseNatVals_eq_ofDigits,
      List.reverse_reverse, Nat.ofDigits_digits]

theorem dropWhile_head_false {p : Char → Bool} :
    ∀ (l t : List Char) (c : Char), l.dropWhile p = c :: t → p c = false := by
  intro l
  induction l with
  | nil => intro t c h; simp [List.dropWhile] at h
  | cons a tl ih =>
    intro t c h
    by_cases hp : p a
    · rw [List.dropWhile_cons_of_pos hp] at h
      exact ih t c h
    · rw [List.dropWhile_cons_of_neg hp] at h
      injection h with h1 h2
      subst h1
      simpa using hp

theorem render_parse_norm (B : BaseName) (cs : List Char)
    (hv : ∀ c ∈ cs, validDigit B c = true) :
    renderNatStr (BASES B) (parseNatDigits (BASES B) cs) =
      (if (cs.dropWhile (fun c => c = '0')).isEmpty then ['0']
       else (cs.dropWhile (fun c => c = '0')).map upperChar) := by
  have hsplit : cs.takeWhile (fun c => decide (c = '0')) ++
      cs.dropWhile (fun c => decide (c = '0')) = cs :=
    List.takeWhile_append_dropWhile _ _
  have hparse : parseNatDigits (BASES B) cs =
      parseNatDigits (BASES B) (cs.dropWhile (fun c => decide (c = '0'))) := by
    conv_lhs => rw [← hsplit]
    apply parse_zeros_prefix
    intro c hc
    have := List.mem_takeWhile_imp hc
    simpa using this
  rw [hparse]
  cases hteq : cs.dropWhile (fun c => decide (c = '0')) with
  | nil =>
    have h0 : parseNatDigits (BASES B) ([] : List Char) = 0 := rfl
    rw [h0]
    simp [renderNatStr]
  | cons c tl =>
    have hmemt : ∀ x ∈ c :: tl, validDigit B x = true := by
      intro x hx
      rw [← hteq] at hx
      exact hv x ((List.dropWhile_sublist _).subset hx)
    have hc0 : c ≠ '0' := by
      have := dropWhile_head_false cs tl c hteq
      simpa using this
    have hcv : validDigit B c = true := hmemt c (List.mem_cons_self c tl)
    have hallv : ∀ d ∈ ((c :: tl).map digitVal).reverse, d < BASES B := by
      intro d hd
      rcases List.mem_map.mp (List.mem_reverse.mp hd) with ⟨x, hx, hxd⟩
      rw [← hxd]
      exact (validDigit_facts B x (hmemt x hx)).1
    have hlast : ∀ h : ((c :: tl).map digitVal).reverse ≠ [],
        (((c :: tl).map digitVal).reverse).getLast h ≠ 0 := by
      intro h
      have h1 : (((c :: tl).map digitVal).reverse).getLast h = digitVal c := by
        rw [List.getLast_reverse]
        rfl
      rw [h1]
      intro h0
      exact hc0 ((validDigit_facts B c hcv).2.2.2.2 h0)
    have hN : parseNatDigits (BASES B) (c :: tl) =
        Nat.ofDigits (BASES B) ((c :: tl).map digitVal).reverse := by
      rw [parseNatDigits_eq_vals, parseNatVals_eq_ofDigits]
    have hdigits : Nat.digits (BASES B)
        (Nat.ofDigits (BASES B) ((c :: tl).map digitVal).reverse) =
        ((c :: tl).map digitVal).reverse :=
      Nat.digits_ofDigits (BASES B) (bases_one_lt B) _ hallv hlast
    have hNne : parseNatDigits (BASES B) (c :: tl) ≠ 0 := by
      rw [hN]
      intro h0
      rw [h0, Nat.digits_zero] at hdigits
      exact absurd hdigits.symm (by simp)
    unfold renderNatStr
    rw [if_neg hNne,
      toDigitsLE_eq (BASES B) (bases_one_lt B) _ _ (le_refl _), hN, hdigits,
      List.reverse_reverse, List.map_map]
    have hmap : ∀ x ∈ c :: tl, (digitChar ∘ digitVal) x = upperChar x := by
      intro x hx
      exact ((validDigit_facts B x (hmemt x hx)).2.1).symm
    rw [List.map_congr_left hmap]
    simp

theorem dropWhile_eq_self_of_all {p : Char → Bool} (l : List Char)
    (h : ∀ c ∈ l, p c = false) : l.dropWhile p = l := by
  cases l with
  | nil => rfl
  | cons a tl =>
    rw [List.dropWhile_cons_of_neg (by simp [h a (List.mem_cons_self a tl)])]

theorem stripSpaces_of_valid (B : BaseName) (cs : List Char)
    (hv : ∀ c ∈ cs, validDigit B c = true) :
    stripSpaces (String.mk cs) = String.mk cs := by
  have hns : ∀ c ∈ cs, isSpaceChar c = false := fun c hc =>
    (validDigit_facts B c (hv c hc)).2.2.1
  unfold stripSpaces pyStripChars
  have htl : (String.mk cs).toList = cs := rfl
  rw [htl]
  rw [dropWhile_eq_self_of_all cs hns,
    dropWhile_eq_self_of_all cs.reverse
      (fun c hc => hns c (List.mem_reverse.mp hc)),
    List.reverse_reverse]
  congr 1
  apply List.filter_eq_self.mpr
  intro c hc
  have := hns c hc
  simp only [decide_eq_true_eq]
  intro he
  subst he
  exact absurd this (by simp [isSpaceChar])

theorem validate_of_digits (B : BaseName) (cs : List Char) (h1 : cs ≠ [])
    (hv : ∀ c ∈ cs, validDigit B c = true) :
    validate_input (String.mk cs) B = true := by
  unfold validate_input
  rw [stripSpaces_of_valid B cs hv]
  have htl : (String.mk cs).toList = cs := rfl
  rw [htl]
  cases cs with
  | nil => exact absurd rfl h1
  | cons c tl =>
    have hc : c ≠ '-' :=
      (validDigit_facts B c (hv c (List.mem_cons_self c tl))).2.2.2.1
    split
    · rename_i heq
      exact absurd heq (by simp)
    · rename_i rest heq
      injection heq with hh _
      exact absurd hh hc
    · rename_i other hne1 hne2
      exact List.all_eq_true.mpr (fun c hc => hv c hc)

theorem pyIntOfDigits_unsigned (b : ℕ) (cs : List Char)
    (h : ∀ c ∈ cs, c ≠ '-') :
    pyIntOfDigits b cs = (parseNatDigits b cs : ℤ) := by
  unfold pyIntOfDigits
  split
  · rename_i rest
    exact absurd rfl (h '-' (List.mem_cons_self _ _))
  · rfl

end NumberConverter

namespace NumberConverter

theorem convert_eval (B B2 : BaseName) (cs : List Char) (h1 : cs ≠ [])
    (hv : ∀ c ∈ cs, validDigit B c = true) :
    convert (String.mk cs) B B2 =
      .ok (String.mk (renderNatStr (BASES B2) (parseNatDigits (BASES B) cs))) := by
  have hnn : ∀ c ∈ cs, c ≠ '-' := fun c hc =>
    (validDigit_facts B c (hv c hc)).2.2.2.1
  have htl : (String.mk cs).toList = cs := rfl
  have hval := validate_of_digits B cs h1 hv
  unfold convert
  rw [stripSpaces_of_valid B cs hv]
  rw [if_neg (fun hno => hno hval)]
  rw [htl, pyIntOfDigits_unsigned (BASES B) cs hnn]
  have hlt : ¬ ((parseNatDigits (BASES B) cs : ℤ) < 0) := by omega
  simp only [if_neg hlt, Int.toNat_natCast]

theorem normalizeDigits_unsigned (cs : List Char)
    (hnn : ∀ c ∈ cs, c ≠ '-') :
    normalizeDigits (String.mk cs) =
      String.mk (if (cs.dropWhile (fun c => c = '0')).isEmpty then ['0']
        else (cs.dropWhile (fun c => c = '0')).map upperChar) := by
  unfold normalizeDigits
  have htl : (String.mk cs).toList = cs := rfl
  rw [htl]
  split
  · rename_i rest
    exact absurd rfl (hnn '-' (List.mem_cons_self _ _))
  · rfl

end NumberConverter

/-- C6 (amended): for every digit string that `validate_input` accepts in
radix r and that carries no leading sign, converting from r to any target
radix r2 and back succeeds and yields the normalized string (leading
zeros stripped, an all-zero string collapsing to "0", hex letters
uppercased).  A signed decimal string does not round-trip through a
non-decimal radix: the converted output carries the sign, and the
validator rejects it on the way back (see the counterexample). -/
theorem claimC6_theorem (s : String) (r r2 : NumberConverter.BaseName)
    (h1 : s.toList ≠ [])
    (hv : ∀ c ∈ s.toList, NumberConverter.validDigit r c = true) :
    (NumberConverter.convert s r r2).bind
      (fun t => NumberConverter.convert t r2 r) =
      .ok (NumberConverter.normalizeDigits s) := by
  obtain ⟨cs⟩ := s
  have htl : (String.mk cs).toList = cs := rfl
  rw [htl] at h1 hv
  have hnn : ∀ c ∈ cs, c ≠ '-' := fun c hc =>
    (NumberConverter.validDigit_facts r c (hv c hc)).2.2.2.1
  have hconv1 := NumberConverter.convert_eval r r2 cs h1 hv
  have htv : ∀ c ∈ NumberConverter.renderNatStr (NumberConverter.BASES r2)
      (NumberConverter.parseNatDigits (NumberConverter.BASES r) cs),
      NumberConverter.validDigit r2 c = true :=
    NumberConverter.renderNatStr_valid r2 _
  have htne := NumberConverter.renderNatStr_ne_nil r2
    (NumberConverter.parseNatDigits (NumberConverter.BASES r) cs)
  have hconv2 := NumberConverter.convert_eval r2 r _ htne htv
  rw [hconv1]
  show NumberConverter.convert
    (String.mk (NumberConverter.renderNatStr (NumberConverter.BASES r2)
      (NumberConverter.parseNatDigits (NumberConverter.BASES r) cs))) r2 r = _
  rw [hconv2, NumberConverter.parse_render r2 _,
    NumberConverter.render_parse_norm r cs hv,
    NumberConverter.normalizeDigits_unsigned cs hnn]

/-- Witness for C6 at the hex string `"ff"` through the Binary radix:
the round trip yields the normalization `"FF"`. -/
theorem claimC6_witness :
    (NumberConverter.convert "ff" .Hexadecimal .Binary).bind
      (fun t => NumberConverter.convert t .Binary .Hexadecimal) =
      .ok (NumberConverter.normalizeDigits "ff") ∧
    NumberConverter.normalizeDigits "ff" = "FF" :=
  ⟨ claimC6_theorem "ff" .Hexadecimal .Binary (by decide) (by decide), rfl⟩

/-- Counterexample to C6 as stated: the signed decimal string `"-1"` is
accepted by the validator, converts to the signed binary string `"-1"`,
but the way back fails with `InvalidDigits` because the binary regex
`^[01]+$` admits no sign — the round trip does not succeed, and no leading
sign is preserved across it. -/
theorem claimC6_counterexample :
    NumberConverter.validate_input "-1" .Decimal = true ∧
    NumberConverter.convert "-1" .Decimal .Binary = .ok "-1" ∧
    NumberConverter.convert "-1" .Binary .Decimal =
      .error (.invalidDigits "Binary") :=
  ⟨rfl, rfl, rfl⟩
